import Mathlib

/-!
Shallow embedding of src/UaDI_template.c from the repository
unified-abstract-dataproducer-template, together with the chunk-ownership
protocol that its header UaDI_template.h documents.

The .c file implements every exported function as a stub: each body is
`return 0;`, except uadi_get_meta_data and uadi_enumerate, which memcpy a
JSON string (plus its terminating NUL byte) into the caller-supplied buffer
and then return 0. No function keeps any state, reads or writes a chunk, or
contains a call site of the receive callback or the recycle callback.
Pointer-typed arguments (handles, callback pointers, context pointers) are
modelled as natural numbers standing for the pointer values; buffers are
modelled by the number of bytes written into them.
-/

set_option maxRecDepth 8192

namespace UaDI

/-- Status code UADI_SUCCESS from UaDI_template.h. -/
def UADI_SUCCESS : Int := 0

/-- Status code UADI_ERROR from UaDI_template.h. -/
def UADI_ERROR : Int := -1

/-- Status code UADI_BUFFER_TOO_SMALL from UaDI_template.h. -/
def UADI_BUFFER_TOO_SMALL : Int := -2

/-- Status code UADI_INVALID_HANDLE from UaDI_template.h. -/
def UADI_INVALID_HANDLE : Int := -3

/-- Status code UADI_NO_DATA from UaDI_template.h. -/
def UADI_NO_DATA : Int := -4

/-- Status code UADI_OUT_OF_CHUNKS from UaDI_template.h. -/
def UADI_OUT_OF_CHUNKS : Int := -5

/-- Status code UADI_INTERNAL_ERROR from UaDI_template.h. -/
def UADI_INTERNAL_ERROR : Int := -255

/-- Function uadi_init from UaDI_template.c: its body is only `return 0;`
(the comment in the source says a thread would be spawned for the
connection, but no code does so). -/
def uadi_init (lib_handle : Nat) : Int := 0

/-- Function uadi_get_meta_data from UaDI_template.c: it builds a cJSON
object with the fields name, version, author and description, memcpys the
string printed by cJSON_Print plus its terminating NUL into the caller
buffer, frees the cJSON objects and returns 0. cJSON is an external
library, so the printed text is a parameter here. The .c definition does
not take the meta_data_size parameter declared in the header and never
consults any buffer capacity. The result is the pair of the returned
status and the number of bytes written into the caller buffer. -/
def uadi_get_meta_data (lib_handle : Nat) (jsonStr : String) : Int × Nat :=
  (0, jsonStr.length + 1)

/-- The JSON device list that uadi_enumerate in UaDI_template.c memcpys
into the caller buffer, exactly as the string literal in the source. -/
def enumerateJson : String :=
  "\x7b\"devices\":[\x7b\"key\":\"123e4567-e89b-12d3-a456-426655440000\",\"vendor\":\"skunkforce e.V.\",\"description\":\"generates an iota\"\x7d,\x7b\"key\":\"e89b4567-123e-12d3-a456-426655440000\",\"vendor\":\"skunkforce e.V.\",\"description\":\"generates an inverse iota\"\x7d]\x7d"

/-- The two device keys occurring in the JSON literal of uadi_enumerate in
UaDI_template.c. -/
def deviceKeys : List String :=
  ["123e4567-e89b-12d3-a456-426655440000",
   "e89b4567-123e-12d3-a456-426655440000"]

/-- Function uadi_enumerate from UaDI_template.c: it memcpys the fixed
JSON string literal plus its terminating NUL into the caller buffer and
returns 0. The .c definition does not take the device_list_size parameter
declared in the header and never consults any buffer capacity. The result
is the pair of the returned status and the number of bytes written. -/
def uadi_enumerate (lib_handle : Nat) : Int × Nat :=
  (0, enumerateJson.length + 1)

/-- Function uadi_claim_device from UaDI_template.c: its body is only
`return 0;`. It ignores the device key, stores no claim, and never writes
the device handle. (The .c definition takes five parameters, not the nine
declared in the header: the recycle callback, its context, and the initial
chunk array are missing.) -/
def uadi_claim_device (lib_handle : Nat) (device_handle : Nat)
    (device_key : String) (callback : Nat) (user_data : Nat) : Int := 0

/-- Function uadi_push_chunks from UaDI_template.c: its body is only
`return 0;`. The chunk array is modelled as the list of chunk identifiers
handed over. -/
def uadi_push_chunks (device_handle : Nat) (chunk_array : List Nat)
    (chunk_count : Nat) : Int := 0

/-- Function uadi_release_device from UaDI_template.c: its body is only
`return 0;`. -/
def uadi_release_device (device_handle : Nat) : Int := 0

/-- Function uadi_deinit from UaDI_template.c: its body is only
`return 0;`. -/
def uadi_deinit (lib_handle : Nat) : Int := 0

/-- The chunk-ownership bookkeeping of the protocol, from the data model
of the header: which chunks have ever been supplied to the library, and
which of them are currently lent-empty, lent-filled, or in flight to the
host. Chunks are identified by the Nat modelling their pointer value. -/
structure ProtocolState where
  supplied : Finset Nat
  lentEmpty : Finset Nat
  lentFilled : Finset Nat
  inFlight : Finset Nat
  deriving DecidableEq

/-- The state before any call: no chunk was ever supplied. -/
def initState : ProtocolState := ⟨∅, ∅, ∅, ∅⟩

/-- Supplied chunks that are back with the host: all supplied chunks that
are neither lent-empty, lent-filled, nor in flight. -/
def ProtocolState.withHost (s : ProtocolState) : Finset Nat :=
  s.supplied \ (s.lentEmpty ∪ s.lentFilled ∪ s.inFlight)

/-- One exported call of the library together with its arguments, as the
host can issue it. -/
inductive Call
  | init (lib_handle : Nat)
  | getMetaData (lib_handle : Nat) (jsonStr : String)
  | enumerate (lib_handle : Nat)
  | claimDevice (lib_handle device_handle : Nat) (device_key : String)
      (callback user_data : Nat)
  | pushChunks (device_handle : Nat) (chunk_array : List Nat)
  | releaseDevice (device_handle : Nat)
  | deinit (lib_handle : Nat)
  deriving DecidableEq

/-- An invocation of a host-supplied callback, recording which chunk it
hands back to the host: deliver is the receive callback delivering a
filled chunk or a marker, recycle is the recycle callback returning an
unused chunk. -/
inductive CallbackEvent
  | deliver (chunk : Nat)
  | recycle (chunk : Nat)
  deriving DecidableEq

/-- Effect of one call as UaDI_template.c executes it: the successor
protocol state, the returned status (taken from the function definitions
above), and the list of callback invocations performed by the body. A
pushChunks call hands the listed chunks over to the library, so they
become supplied and lent-empty. No body of UaDI_template.c fills a chunk,
delivers a chunk, or recycles a chunk, and no body contains a call site of
either callback, so every other transition leaves the ownership state
unchanged and every emitted callback list is empty. -/
def step (s : ProtocolState) : Call → ProtocolState × Int × List CallbackEvent
  | .init h => (s, uadi_init h, [])
  | .getMetaData h js => (s, (uadi_get_meta_data h js).1, [])
  | .enumerate h => (s, (uadi_enumerate h).1, [])
  | .claimDevice lh dh key cb ud => (s, uadi_claim_device lh dh key cb ud, [])
  | .pushChunks dh arr =>
      ({ s with supplied := s.supplied ∪ arr.toFinset,
                lentEmpty := s.lentEmpty ∪ arr.toFinset },
       uadi_push_chunks dh arr arr.length, [])
  | .releaseDevice dh => (s, uadi_release_device dh, [])
  | .deinit h => (s, uadi_deinit h, [])

/-- The protocol state after executing a sequence of calls. -/
def runState (s : ProtocolState) : List Call → ProtocolState
  | [] => s
  | c :: tr => runState (step s c).1 tr

/-- The statuses returned along a sequence of calls, in order. -/
def traceStatuses (s : ProtocolState) : List Call → List Int
  | [] => []
  | c :: tr => (step s c).2.1 :: traceStatuses (step s c).1 tr

/-- The callback invocations performed along a sequence of calls, in
order. -/
def traceCallbacks (s : ProtocolState) : List Call → List CallbackEvent
  | [] => []
  | c :: tr => (step s c).2.2 ++ traceCallbacks (step s c).1 tr

/-- Invariant maintained by every call of UaDI_template.c: the code never
fills, delivers, or recycles a chunk, so no chunk is lent-filled or in
flight and every supplied chunk is still lent-empty. -/
def Inv (s : ProtocolState) : Prop :=
  s.lentFilled = ∅ ∧ s.inFlight = ∅ ∧ s.lentEmpty = s.supplied

lemma inv_step (s : ProtocolState) (c : Call) (h : Inv s) : Inv (step s c).1 := by
  cases c <;> simp_all [Inv, step]

lemma inv_runState (tr : List Call) :
    ∀ s : ProtocolState, Inv s → Inv (runState s tr) := by
  induction tr with
  | nil => intro s h; exact h
  | cons c tr ih => intro s h; exact ih _ (inv_step s c h)

lemma step_status (s : ProtocolState) (c : Call) : (step s c).2.1 = UADI_SUCCESS := by
  cases c <;> rfl

lemma traceCallbacks_eq_nil (tr : List Call) :
    ∀ s : ProtocolState, traceCallbacks s tr = [] := by
  induction tr with
  | nil => intro s; rfl
  | cons c tr ih => intro s; cases c <;> simp [traceCallbacks, step, ih]

lemma traceStatuses_eq_replicate (tr : List Call) :
    ∀ s : ProtocolState, traceStatuses s tr = List.replicate tr.length UADI_SUCCESS := by
  induction tr with
  | nil => intro s; rfl
  | cons c tr ih =>
      intro s
      simp only [traceStatuses, ih, List.length_cons, List.replicate_succ,
        List.cons.injEq, and_true]
      exact step_status s c

/-- C1: chunk conservation. After every sequence of calls the host can
issue, the chunks ever supplied to the library are partitioned by the four
ownership states: the with-host, lent-empty, lent-filled and in-flight
sets are pairwise disjoint, their union is exactly the set of chunks ever
supplied, and their cardinalities sum to the number of chunks ever
supplied — no chunk is created, destroyed, or duplicated by any
operation. -/
theorem chunk_conservation (tr : List Call) :
    (runState initState tr).withHost ∪ (runState initState tr).lentEmpty ∪
        (runState initState tr).lentFilled ∪ (runState initState tr).inFlight =
      (runState initState tr).supplied ∧
    Disjoint (runState initState tr).withHost (runState initState tr).lentEmpty ∧
    Disjoint (runState initState tr).withHost (runState initState tr).lentFilled ∧
    Disjoint (runState initState tr).withHost (runState initState tr).inFlight ∧
    Disjoint (runState initState tr).lentEmpty (runState initState tr).lentFilled ∧
    Disjoint (runState initState tr).lentEmpty (runState initState tr).inFlight ∧
    Disjoint (runState initState tr).lentFilled (runState initState tr).inFlight ∧
    (runState initState tr).withHost.card + (runState initState tr).lentEmpty.card +
        (runState initState tr).lentFilled.card + (runState initState tr).inFlight.card =
      (runState initState tr).supplied.card := by
  obtain ⟨h1, h2, h3⟩ := inv_runState tr initState ⟨rfl, rfl, rfl⟩
  simp [ProtocolState.withHost, h1, h2, h3]

/-- C10: no operation ever invokes the receive callback or the recycle
callback: every sequence of calls performs zero callback invocations, and
consequently every chunk ever supplied is still lent-empty afterwards — no
chunk ever transitions out of the lent states back to with-host. -/
theorem no_callback_invocations (tr : List Call) :
    (traceCallbacks initState tr).length = 0 ∧
    (runState initState tr).lentEmpty = (runState initState tr).supplied := by
  refine ⟨by simp [traceCallbacks_eq_nil], ?_⟩
  exact (inv_runState tr initState ⟨rfl, rfl, rfl⟩).2.2

/-- C9: every exported operation of UaDI_template.c returns 0
(UADI_SUCCESS) for every input — including a null (0) handle, an unknown
device key, and a zero chunk count — and along every sequence of calls
every returned status is 0, so no call path ever returns any of the
declared error codes. -/
theorem stub_calls_always_succeed :
    (∀ h, uadi_init h = UADI_SUCCESS) ∧
    (∀ lh dh key cb ud, uadi_claim_device lh dh key cb ud = UADI_SUCCESS) ∧
    (∀ dh arr n, uadi_push_chunks dh arr n = UADI_SUCCESS) ∧
    (∀ dh, uadi_release_device dh = UADI_SUCCESS) ∧
    (∀ h, uadi_deinit h = UADI_SUCCESS) ∧
    (∀ s tr, traceStatuses s tr = List.replicate tr.length UADI_SUCCESS) :=
  ⟨fun _ => rfl, fun _ _ _ _ _ => rfl, fun _ _ _ => rfl, fun _ => rfl,
   fun _ => rfl, fun s tr => traceStatuses_eq_replicate tr s⟩

/-- C2 failing input: push chunk 1 to device handle 1, then release device
handle 1. The release call returns 0 immediately, the whole sequence
invokes no callback at all — in particular no recycle callback — and chunk
1 is still lent-empty afterwards instead of having been returned to the
host. -/
theorem release_no_recycle_at_failing_input :
    runState initState [Call.pushChunks 1 [1], Call.releaseDevice 1] =
      ⟨{1}, {1}, ∅, ∅⟩ ∧
    traceCallbacks initState [Call.pushChunks 1 [1], Call.releaseDevice 1] = [] ∧
    uadi_release_device 1 = UADI_SUCCESS := by
  decide

/-- C3 failing input: claim the first enumerated device key, push one
chunk, then release immediately. Zero delivery callbacks occur during the
whole sequence — not the exactly-one empty-marker delivery the claim
requires — while every call returns 0. -/
theorem release_no_empty_marker_at_failing_input :
    "123e4567-e89b-12d3-a456-426655440000" ∈ deviceKeys ∧
    traceCallbacks initState
        [Call.claimDevice 1 2 "123e4567-e89b-12d3-a456-426655440000" 3 4,
         Call.pushChunks 2 [1], Call.releaseDevice 2] = [] ∧
    (traceCallbacks initState
        [Call.claimDevice 1 2 "123e4567-e89b-12d3-a456-426655440000" 3 4,
         Call.pushChunks 2 [1], Call.releaseDevice 2]).length ≠ 1 := by
  decide

/-- C4 failing input: claiming the key "no-such-device", which is not
among the enumerated device keys, returns 0 (success) instead of failing
with UADI_INVALID_HANDLE. -/
theorem claim_unknown_key_at_failing_input :
    "no-such-device" ∉ deviceKeys ∧
    uadi_claim_device 1 2 "no-such-device" 3 4 = UADI_SUCCESS ∧
    uadi_claim_device 1 2 "no-such-device" 3 4 ≠ UADI_INVALID_HANDLE := by
  decide

/-- C5 failing input: claiming the first enumerated key a second time,
while the first claim is still active, also returns 0 instead of failing
with UADI_INTERNAL_ERROR — the code keeps no claim state at all, so the
two calls are indistinguishable to it. -/
theorem second_claim_at_failing_input :
    "123e4567-e89b-12d3-a456-426655440000" ∈ deviceKeys ∧
    uadi_claim_device 1 2 "123e4567-e89b-12d3-a456-426655440000" 3 4 = UADI_SUCCESS ∧
    uadi_claim_device 1 5 "123e4567-e89b-12d3-a456-426655440000" 3 4 = UADI_SUCCESS ∧
    uadi_claim_device 1 5 "123e4567-e89b-12d3-a456-426655440000" 3 4 ≠ UADI_INTERNAL_ERROR := by
  decide

/-- C6 failing input: uadi_enumerate with a 1-byte caller buffer. The code
writes the full JSON text plus the terminating NUL (230 bytes, far more
than 1) into the buffer regardless of any capacity — the .c definition
does not even take the size parameter declared in the header — and returns
0, never UADI_BUFFER_TOO_SMALL; uadi_get_meta_data likewise returns 0 for
every printed text. -/
theorem buffer_too_small_never_returned :
    (uadi_enumerate 1).1 = UADI_SUCCESS ∧
    (uadi_enumerate 1).1 ≠ UADI_BUFFER_TOO_SMALL ∧
    (uadi_enumerate 1).2 = enumerateJson.length + 1 ∧
    1 < (uadi_enumerate 1).2 ∧
    (∀ h js, (uadi_get_meta_data h js).1 = UADI_SUCCESS) :=
  ⟨rfl, by decide, rfl, by decide, fun _ _ => rfl⟩

/-- C7 failing input: pushing one chunk with the null (0) device handle,
which refers to no claimed or draining device, returns 0 instead of
failing with UADI_INVALID_HANDLE. -/
theorem push_unclaimed_at_failing_input :
    uadi_push_chunks 0 [7] 1 = UADI_SUCCESS ∧
    uadi_push_chunks 0 [7] 1 ≠ UADI_INVALID_HANDLE := by
  decide

/-- C8 failing input: after claiming the first enumerated device and not
releasing it, uadi_deinit still returns 0 instead of failing with
UADI_INTERNAL_ERROR: the statuses along the sequence claim-then-deinit are
0 and 0. -/
theorem deinit_with_active_claim_at_failing_input :
    traceStatuses initState
        [Call.claimDevice 1 2 "123e4567-e89b-12d3-a456-426655440000" 3 4,
         Call.deinit 1] = [UADI_SUCCESS, UADI_SUCCESS] ∧
    uadi_deinit 1 ≠ UADI_INTERNAL_ERROR := by
  decide

end UaDI
